import Mathlib

/-!
Verification development for the Astral satellite-tracking client.

The definitions below are a shallow embedding of the core of the
repository: the zustand satellite store (`useSatelliteStore`), the
per-frame propagation/throttle loop of the `Satellites` component, the
camera transition of `CameraController`, and the trail LOD policy of
`SatelliteTrails`.  Numeric fields are modelled over `ℚ` (exact inputs)
and distances/eased factors over `ℝ`, since the source computes with
square roots and exponentials.
-/

set_option maxHeartbeats 1000000

namespace Astral

/-- Catalog entry, from `SatelliteInfo` in the store module.  The optional
classification metadata is irrelevant to the modelled operations and is
omitted. -/
structure SatelliteInfo where
  name : String
  noradId : String
  line1 : String
  line2 : String
  deriving Repr, DecidableEq

/-- One buffered position sample, from `SatellitePosition` in the store
module (also the shape of `LocalPositionBuffer` in `Satellites.tsx`). -/
structure SatellitePosition where
  x : ℚ
  y : ℚ
  z : ℚ
  lat : ℚ
  lon : ℚ
  alt : ℚ
  velocity : ℚ
  deriving Repr, DecidableEq

/-- The zustand store state (`useSatelliteStore`), restricted to the fields
read or written by the modelled operations.  `satellitePositions` (the
throttled map) and the buffer returned by `realtimePositionGetter` are
modelled as lookup functions `String → Option SatellitePosition`, since the
store only ever reads them by key.  Fields of the store that none of the
modelled operations touch (time, search, trail toggles) are omitted: every
modelled operation leaves them unchanged, as in the source. -/
structure Store where
  satellites : List SatelliteInfo
  satellitePositions : String → Option SatellitePosition
  selectedSatellite : Option String
  hoveredSatellite : Option String
  followedSatellite : Option String
  visitedObject : Option String
  closestSatelliteMode : Bool
  closestSatelliteId : Option String
  closestSatelliteDistance : Option ℝ
  realtimePositionGetter : Option (String → Option SatellitePosition)

/-- Store action `getRealtimePosition`: when a realtime getter is
registered, look the id up in the buffer it returns (the JS
`?? null` coercion is the `Option` itself); otherwise fall back to the
throttled `satellitePositions` map. -/
def getRealtimePosition (s : Store) (noradId : String) : Option SatellitePosition :=
  match s.realtimePositionGetter with
  | some getter => getter noradId
  | none => s.satellitePositions noradId

/-- Store action `setSelectedSatellite`: sets the selection and resets
the closest-satellite mode and its result fields. -/
def setSelectedSatellite (s : Store) (noradId : Option String) : Store :=
  { s with
    selectedSatellite := noradId
    closestSatelliteMode := false
    closestSatelliteId := none
    closestSatelliteDistance := none }

/-- Store action `enableClosestSatelliteMode`: a no-op when nothing is
selected, otherwise sets the mode flag.  The source then schedules
`findClosestSatellite` behind a 100 ms `setTimeout`; that deferred call is
modelled as a later application of `findClosestSatellite` to whatever
store state holds when the timer fires. -/
def enableClosestSatelliteMode (s : Store) : Store :=
  match s.selectedSatellite with
  | none => s
  | some _ => { s with closestSatelliteMode := true }

/-- Store action `disableClosestSatelliteMode`. -/
def disableClosestSatelliteMode (s : Store) : Store :=
  { s with
    closestSatelliteMode := false
    closestSatelliteId := none
    closestSatelliteDistance := none }

/-- The 3D Euclidean distance computed inside `findClosestSatellite`:
`Math.sqrt(dx*dx + dy*dy + dz*dz)` with `dx = pos.x - selectedPos.x` etc. -/
noncomputable def dist3 (pos selectedPos : SatellitePosition) : ℝ :=
  Real.sqrt (((pos.x - selectedPos.x : ℚ) : ℝ) * ((pos.x - selectedPos.x : ℚ) : ℝ) +
    ((pos.y - selectedPos.y : ℚ) : ℝ) * ((pos.y - selectedPos.y : ℚ) : ℝ) +
    ((pos.z - selectedPos.z : ℚ) : ℝ) * ((pos.z - selectedPos.z : ℚ) : ℝ))

/-- The body of the `state.satellites.forEach` loop in
`findClosestSatellite`: skip the selected id, skip candidates with no
buffered position, otherwise keep the running minimum.  The source's
initial `closestDistance = Infinity` is modelled by the `none`
accumulator: the first candidate always beats it, matching every finite
IEEE value comparing below `Infinity`. -/
noncomputable def stepBest (s : Store) (selectedId : String)
    (selectedPos : SatellitePosition) (acc : Option (String × ℝ))
    (sat : SatelliteInfo) : Option (String × ℝ) :=
  if sat.noradId = selectedId then acc
  else
    match getRealtimePosition s sat.noradId with
    | none => acc
    | some pos =>
      match acc with
      | none => some (sat.noradId, dist3 pos selectedPos)
      | some (closestId, closestDistance) =>
        if dist3 pos selectedPos < closestDistance then
          some (sat.noradId, dist3 pos selectedPos)
        else some (closestId, closestDistance)

/-- The full linear scan of `findClosestSatellite` over `state.satellites`. -/
noncomputable def scanBest (s : Store) (selectedId : String)
    (selectedPos : SatellitePosition) : Option (String × ℝ) :=
  s.satellites.foldl (stepBest s selectedId selectedPos) none

/-- Store action `findClosestSatellite`.  Early returns (no selection,
selected position not buffered, no realtime getter registered, no
candidate found) leave the state untouched; a found minimum is written
into `closestSatelliteId` / `closestSatelliteDistance`.  The source's
truthiness guards (`if (!selectedId)`, `if (closestId)`) are modelled as
null-checks. -/
noncomputable def findClosestSatellite (s : Store) : Store :=
  match s.selectedSatellite with
  | none => s
  | some selectedId =>
    match getRealtimePosition s selectedId with
    | none => s
    | some selectedPos =>
      match s.realtimePositionGetter with
      | none => s
      | some _ =>
        match scanBest s selectedId selectedPos with
        | none => s
        | some (closestId, closestDistance) =>
          { s with
            closestSatelliteId := some closestId
            closestSatelliteDistance := some closestDistance }

/-- Constant `SCALE_FACTOR` from `Satellites.tsx` (also `SatelliteTrails`):
kilometres are multiplied by this factor on the way into scene
coordinates. -/
def SCALE_FACTOR : ℚ := 1 / 1000

/-- Constant `EARTH_RADIUS` from `Earth.tsx`: the rendered Earth radius in scene
units (6371 km scaled by `SCALE_FACTOR`). -/
def EARTH_RADIUS : ℚ := 6.371

/-- Modelled from the spec: the inverse scaling that §4.3 says is applied
to a scene-coordinate distance "back to kilometers" before it is
reported.  No such scaling exists in the source; this definition is the
spec's claimed conversion, for comparison with what the code stores. -/
noncomputable def kmFromScene (d : ℝ) : ℝ :=
  d / (SCALE_FACTOR : ℝ)

/-! The per-frame loop of the `Satellites` component (`Satellites.tsx`):
frame counting, per-object propagation into the local position buffer,
and the throttled flush into the zustand store. -/

/-- Constant `ZUSTAND_UPDATE_INTERVAL` from `Satellites.tsx`. -/
def ZUSTAND_UPDATE_INTERVAL : ℕ := 60

/-- The flush condition of `Satellites.tsx`:
`frameCounter.current % ZUSTAND_UPDATE_INTERVAL === 0`, evaluated on the
already-incremented counter. -/
def shouldUpdateZustand (frameCounter : ℕ) : Bool :=
  frameCounter % ZUSTAND_UPDATE_INTERVAL = 0

/-- JS `Map.prototype.set` on the local position buffer, modelled as an
association list: replace in place when the key exists, else append
(insertion order preserved, as for a JS `Map`). -/
def bufferSet (buffer : List (String × SatellitePosition)) (noradId : String)
    (pos : SatellitePosition) : List (String × SatellitePosition) :=
  if buffer.any (fun e => e.1 = noradId) then
    buffer.map (fun e => if e.1 = noradId then (noradId, pos) else e)
  else buffer ++ [(noradId, pos)]

/-- The `satelliteData.forEach` loop of the tick: each object's
propagation either succeeds with a sample (`some pos`, the body runs to
the `localPositionBuffer.current.set` call) or throws (`none`, the
per-object `catch` swallows the error and the buffer is untouched for
that object).  Objects are processed left to right. -/
def processObjects (buffer : List (String × SatellitePosition))
    (results : List (String × Option SatellitePosition)) :
    List (String × SatellitePosition) :=
  results.foldl
    (fun buf r =>
      match r.2 with
      | some pos => bufferSet buf r.1 pos
      | none => buf)
    buffer

/-- The flush of the tick: `localPositionBuffer.current.forEach((pos, id)
=> setSatellitePosition(id, pos))` — every buffer entry is written into
the observable map; entries of the map absent from the buffer persist. -/
def flushToStore (buffer : List (String × SatellitePosition))
    (storePositions : String → Option SatellitePosition) :
    String → Option SatellitePosition :=
  buffer.foldl
    (fun st e => fun k => if k = e.1 then some e.2 else st k)
    storePositions

/-- The state touched by one `useFrame` tick of `Satellites`:
the frame counter, the non-observable local position buffer, and the
externally observable `satellitePositions` copy in the zustand store. -/
structure SatFrameState where
  frameCounter : ℕ
  localPositionBuffer : List (String × SatellitePosition)
  storePositions : String → Option SatellitePosition

/-- One `useFrame` tick of `Satellites` (taken on the branch where the
instanced mesh exists and the catalog is non-empty, i.e. past the early
return): increment the counter, propagate every object into the buffer
(`results` lists each object's propagation outcome in catalog order), and
copy the buffer into the observable store exactly when the incremented
counter is divisible by the interval. -/
def satellitesTick (s : SatFrameState)
    (results : List (String × Option SatellitePosition)) : SatFrameState :=
  let frameCounter := s.frameCounter + 1
  let buffer := processObjects s.localPositionBuffer results
  { frameCounter := frameCounter
    localPositionBuffer := buffer
    storePositions :=
      if shouldUpdateZustand frameCounter then flushToStore buffer s.storePositions
      else s.storePositions }

/-! The camera transition of `CameraController.tsx`. -/

/-- A three.js `Vector3`, over `ℝ`. -/
structure Vec3 where
  x : ℝ
  y : ℝ
  z : ℝ

/-- Three.js `Vector3.lerpVectors(a, b, t)`: componentwise `a + (b - a) * t`. -/
def lerpVectors (a b : Vec3) (t : ℝ) : Vec3 :=
  ⟨a.x + (b.x - a.x) * t, a.y + (b.y - a.y) * t, a.z + (b.z - a.z) * t⟩

/-- Easing curve `easeOutExpo` from `CameraController.tsx`:
`t === 1 ? 1 : 1 - Math.pow(2, -10 * t)`.  Tick progress is rational, the
eased value real. -/
noncomputable def easeOutExpo (t : ℚ) : ℝ :=
  if t = 1 then 1 else 1 - (2 : ℝ) ^ (((-10 : ℚ) * t : ℚ) : ℝ)

/-- The camera states of `CameraController.tsx`. -/
inductive CameraState where
  | overview
  | visitingEarth
  | visitingSatellite
  | closestSatelliteView
  | transitioning
  deriving Repr, DecidableEq

/-- The state-resolution run when a transition completes (the
`transitionProgress.current >= 1` branch of the `useFrame` callback). -/
def resolveSteadyState (closestSatelliteMode : Bool)
    (visitedObject : Option String) : CameraState :=
  if closestSatelliteMode then .closestSatelliteView
  else
    match visitedObject with
    | none => .overview
    | some obj => if obj = "earth" then .visitingEarth else .visitingSatellite

/-- The refs and state of `CameraController` touched by the transition
branch of its `useFrame` callback. -/
structure CamState where
  cameraState : CameraState
  isTransitioning : Bool
  transitionProgress : ℚ
  camPos : Vec3
  ctrlTarget : Vec3
  startCameraPosition : Vec3
  startCameraTarget : Vec3
  targetPosition : Vec3
  targetLookAt : Vec3

/-- The transition branch of `CameraController`'s `useFrame`: while
transitioning, advance progress by `delta * 1.2`, clamp at 1 (also
resolving the steady state and ending the transition), then place the
camera and the controls target by easing the fixed start/target pairs.
When not transitioning this claim's branch does nothing (the steady-state
follow branches are outside the transition and outside this model). -/
noncomputable def cameraTransitionTick (delta : ℚ) (closestSatelliteMode : Bool)
    (visitedObject : Option String) (s : CamState) : CamState :=
  if s.isTransitioning then
    let p := s.transitionProgress + delta * 1.2
    if 1 ≤ p then
      { s with
        transitionProgress := 1
        isTransitioning := false
        cameraState := resolveSteadyState closestSatelliteMode visitedObject
        camPos := lerpVectors s.startCameraPosition s.targetPosition (easeOutExpo 1)
        ctrlTarget := lerpVectors s.startCameraTarget s.targetLookAt (easeOutExpo 1) }
    else
      { s with
        transitionProgress := p
        camPos := lerpVectors s.startCameraPosition s.targetPosition (easeOutExpo p)
        ctrlTarget := lerpVectors s.startCameraTarget s.targetLookAt (easeOutExpo p) }
  else s

/-! The trail LOD policy of the `SatelliteTrails` component. -/

/-- Constant `MAX_TRAIL_SEGMENTS` from `SatelliteTrails`. -/
def MAX_TRAIL_SEGMENTS : ℚ := 100

/-- Constant `MIN_TRAIL_SEGMENTS` from `SatelliteTrails`. -/
def MIN_TRAIL_SEGMENTS : ℚ := 10

/-- Constant `MAX_VISIBLE_DISTANCE` from `SatelliteTrails`. -/
def MAX_VISIBLE_DISTANCE : ℚ := 100

/-- Constant `LOD_NEAR_DISTANCE` from `SatelliteTrails`. -/
def LOD_NEAR_DISTANCE : ℚ := 15

/-- Constant `LOD_FAR_DISTANCE` from `SatelliteTrails`. -/
def LOD_FAR_DISTANCE : ℚ := 50

/-- The `newSegments` computation of `SatelliteTrails`' `useFrame`
callback, as a function of the camera-to-satellite distance.  (The two
constant branches carry no `Math.floor` in the source; `⌊⌋` on the
integral constant is the identity.) -/
def lodSegments (distance : ℚ) : ℤ :=
  if distance > MAX_VISIBLE_DISTANCE then 0
  else if distance < LOD_NEAR_DISTANCE then ⌊MAX_TRAIL_SEGMENTS⌋
  else if distance < LOD_FAR_DISTANCE then
    ⌊MAX_TRAIL_SEGMENTS -
      (distance - LOD_NEAR_DISTANCE) / (LOD_FAR_DISTANCE - LOD_NEAR_DISTANCE) *
        (MAX_TRAIL_SEGMENTS - MIN_TRAIL_SEGMENTS)⌋
  else
    max 0
      ⌊MIN_TRAIL_SEGMENTS *
        (1 - (distance - LOD_FAR_DISTANCE) / (MAX_VISIBLE_DISTANCE - LOD_FAR_DISTANCE))⌋

/-! Concrete data for the spec's scenario (§8): selected object at scene
position (0,0,0) and the single other candidate at (3,4,0). -/

/-- The selected object's buffered position in the spec's scenario. -/
def posA : SatellitePosition := ⟨0, 0, 0, 0, 0, 0, 0⟩

/-- The candidate's buffered position in the spec's scenario. -/
def posB : SatellitePosition := ⟨3, 4, 0, 0, 0, 0, 0⟩

/-- Catalog entry for the selected object of the scenario. -/
def satA : SatelliteInfo := ⟨"SAT-A", "A", "L1A", "L2A"⟩

/-- Catalog entry for the candidate object of the scenario. -/
def satB : SatelliteInfo := ⟨"SAT-B", "B", "L1B", "L2B"⟩

/-- The realtime position buffer of the scenario. -/
def exampleBuffer : String → Option SatellitePosition :=
  fun noradId =>
    if noradId = "A" then some posA
    else if noradId = "B" then some posB
    else none

/-- The store state of the scenario: A selected, realtime getter
registered, compare mode not yet enabled. -/
def exampleStore : Store :=
  { satellites := [satA, satB]
    satellitePositions := fun _ => none
    selectedSatellite := some "A"
    hoveredSatellite := none
    followedSatellite := none
    visitedObject := none
    closestSatelliteMode := false
    closestSatelliteId := none
    closestSatelliteDistance := none
    realtimePositionGetter := some exampleBuffer }

/-- A store state with no current selection. -/
def storeNoSelection : Store :=
  { exampleStore with selectedSatellite := none }

/-- A store state whose realtime buffer holds no position at all yet. -/
def storeNoPosition : Store :=
  { exampleStore with realtimePositionGetter := some (fun _ => none) }

/-- A store state where only the selected object's position is buffered,
so no candidate has a buffered position. -/
def storeNoCandidate : Store :=
  { exampleStore with
    realtimePositionGetter := some (fun noradId => if noradId = "A" then some posA else none) }

/-- The Satellites tick state used by concrete witnesses. -/
def exampleFrameState : SatFrameState :=
  { frameCounter := 0
    localPositionBuffer := []
    storePositions := fun _ => none }

/-- A camera state at the start of a transition, used by the concrete
witness of the transition theorem. -/
def exampleCamState : CamState :=
  { cameraState := .transitioning
    isTransitioning := true
    transitionProgress := 0
    camPos := ⟨0, 15, 30⟩
    ctrlTarget := ⟨0, 0, 0⟩
    startCameraPosition := ⟨0, 15, 30⟩
    startCameraTarget := ⟨0, 0, 0⟩
    targetPosition := ⟨1, 2, 3⟩
    targetLookAt := ⟨4, 5, 6⟩ }

/-! Helper lemmas. -/

/-- With a registered getter, `getRealtimePosition` is the buffer lookup. -/
lemma getRealtimePosition_getter (s : Store) (buf : String → Option SatellitePosition)
    (h : s.realtimePositionGetter = some buf) (noradId : String) :
    getRealtimePosition s noradId = buf noradId := by
  simp [getRealtimePosition, h]

/-- Full characterisation of the running-minimum fold of
`findClosestSatellite`, for any start accumulator.  Either no candidate
in the list beats the accumulator (and the fold returns it unchanged), or
the list splits around the winning candidate: the first candidate
attaining the minimum, beating the accumulator, strictly beating every
candidate before it, and no worse than every candidate after it. -/
lemma scanBest_fold_spec (s : Store) (sid : String) (spos : SatellitePosition) :
    ∀ (l : List SatelliteInfo) (acc : Option (String × ℝ)),
    (l.foldl (stepBest s sid spos) acc = acc ∧
      ∀ c ∈ l, c.noradId ≠ sid → ∀ q, getRealtimePosition s c.noradId = some q →
        ∃ bid bd, acc = some (bid, bd) ∧ ¬ dist3 q spos < bd)
    ∨ (∃ l₁ w l₂ p,
        l = l₁ ++ w :: l₂ ∧ w.noradId ≠ sid ∧
        getRealtimePosition s w.noradId = some p ∧
        l.foldl (stepBest s sid spos) acc = some (w.noradId, dist3 p spos) ∧
        (∀ bid bd, acc = some (bid, bd) → dist3 p spos < bd) ∧
        (∀ c ∈ l₁, c.noradId ≠ sid → ∀ q, getRealtimePosition s c.noradId = some q →
          dist3 p spos < dist3 q spos) ∧
        (∀ c ∈ l₂, c.noradId ≠ sid → ∀ q, getRealtimePosition s c.noradId = some q →
          dist3 p spos ≤ dist3 q spos)) := by
  intro l
  induction l with
  | nil =>
    intro acc
    left
    exact ⟨rfl, by simp⟩
  | cons sat rest ih =>
    intro acc
    by_cases hsid : sat.noradId = sid
    · have hstep : stepBest s sid spos acc sat = acc := by simp [stepBest, hsid]
      rcases ih acc with ⟨heq, hall⟩ | ⟨l₁, w, l₂, p, hl, hw, hp, hr, hbeat, hl₁, hl₂⟩
      · left
        refine ⟨by rw [List.foldl_cons, hstep, heq], ?_⟩
        intro c hc hcne q hq
        rcases List.mem_cons.mp hc with rfl | hc'
        · exact absurd hsid hcne
        · exact hall c hc' hcne q hq
      · right
        refine ⟨sat :: l₁, w, l₂, p, by rw [hl]; rfl, hw, hp,
          by rw [List.foldl_cons, hstep]; exact hr, hbeat, ?_, hl₂⟩
        intro c hc hcne q hq
        rcases List.mem_cons.mp hc with rfl | hc'
        · exact absurd hsid hcne
        · exact hl₁ c hc' hcne q hq
    · cases hpos : getRealtimePosition s sat.noradId with
      | none =>
        have hstep : stepBest s sid spos acc sat = acc := by simp [stepBest, hsid, hpos]
        rcases ih acc with ⟨heq, hall⟩ | ⟨l₁, w, l₂, p, hl, hw, hp, hr, hbeat, hl₁, hl₂⟩
        · left
          refine ⟨by rw [List.foldl_cons, hstep, heq], ?_⟩
          intro c hc hcne q hq
          rcases List.mem_cons.mp hc with rfl | hc'
          · rw [hpos] at hq; cases hq
          · exact hall c hc' hcne q hq
        · right
          refine ⟨sat :: l₁, w, l₂, p, by rw [hl]; rfl, hw, hp,
            by rw [List.foldl_cons, hstep]; exact hr, hbeat, ?_, hl₂⟩
          intro c hc hcne q hq
          rcases List.mem_cons.mp hc with rfl | hc'
          · rw [hpos] at hq; cases hq
          · exact hl₁ c hc' hcne q hq
      | some pos =>
        cases acc with
        | none =>
          have hstep : stepBest s sid spos none sat = some (sat.noradId, dist3 pos spos) := by
            simp [stepBest, hsid, hpos]
          rcases ih (some (sat.noradId, dist3 pos spos)) with
            ⟨heq, hall⟩ | ⟨l₁, w, l₂, p, hl, hw, hp, hr, hbeat, hl₁, hl₂⟩
          · right
            refine ⟨[], sat, rest, pos, rfl, hsid, hpos,
              by rw [List.foldl_cons, hstep, heq], ?_, by simp, ?_⟩
            · intro bid bd h; cases h
            · intro c hc hcne q hq
              obtain ⟨bid, bd, hbd, hnlt⟩ := hall c hc hcne q hq
              have hbd' : bd = dist3 pos spos := by
                injection hbd with h₁
                injection h₁ with h₂ h₃
                exact h₃.symm
              rw [hbd'] at hnlt
              exact not_lt.mp hnlt
          · right
            refine ⟨sat :: l₁, w, l₂, p, by rw [hl]; rfl, hw, hp,
              by rw [List.foldl_cons, hstep]; exact hr, ?_, ?_, hl₂⟩
            · intro bid bd h; cases h
            · intro c hc hcne q hq
              rcases List.mem_cons.mp hc with rfl | hc'
              · have hq' : q = pos := by rw [hpos] at hq; injection hq with h; exact h.symm
                rw [hq']
                exact hbeat _ _ rfl
              · exact hl₁ c hc' hcne q hq
        | some best =>
          obtain ⟨bid, bd⟩ := best
          by_cases hlt : dist3 pos spos < bd
          · have hstep : stepBest s sid spos (some (bid, bd)) sat =
                some (sat.noradId, dist3 pos spos) := by
              simp [stepBest, hsid, hpos, hlt]
            rcases ih (some (sat.noradId, dist3 pos spos)) with
              ⟨heq, hall⟩ | ⟨l₁, w, l₂, p, hl, hw, hp, hr, hbeat, hl₁, hl₂⟩
            · right
              refine ⟨[], sat, rest, pos, rfl, hsid, hpos,
                by rw [List.foldl_cons, hstep, heq], ?_, by simp, ?_⟩
              · intro bid' bd' h
                have h₁ : bd' = bd := by
                  injection h with h₂
                  injection h₂ with h₃ h₄
                  exact h₄.symm
                rw [h₁]; exact hlt
              · intro c hc hcne q hq
                obtain ⟨bid', bd', hbd, hnlt⟩ := hall c hc hcne q hq
                have hbd' : bd' = dist3 pos spos := by
                  injection hbd with h₁
                  injection h₁ with h₂ h₃
                  exact h₃.symm
                rw [hbd'] at hnlt
                exact not_lt.mp hnlt
            · right
              refine ⟨sat :: l₁, w, l₂, p, by rw [hl]; rfl, hw, hp,
                by rw [List.foldl_cons, hstep]; exact hr, ?_, ?_, hl₂⟩
              · intro bid' bd' h
                have h₁ : bd' = bd := by
                  injection h with h₂
                  injection h₂ with h₃ h₄
                  exact h₄.symm
                have h₂ : dist3 p spos < dist3 pos spos :=
                  hbeat sat.noradId (dist3 pos spos) rfl
                rw [h₁]; exact lt_trans h₂ hlt
              · intro c hc hcne q hq
                rcases List.mem_cons.mp hc with rfl | hc'
                · have hq' : q = pos := by rw [hpos] at hq; injection hq with h; exact h.symm
                  rw [hq']
                  exact hbeat _ _ rfl
                · exact hl₁ c hc' hcne q hq
          · have hstep : stepBest s sid spos (some (bid, bd)) sat = some (bid, bd) := by
              simp [stepBest, hsid, hpos, hlt]
            rcases ih (some (bid, bd)) with
              ⟨heq, hall⟩ | ⟨l₁, w, l₂, p, hl, hw, hp, hr, hbeat, hl₁, hl₂⟩
            · left
              refine ⟨by rw [List.foldl_cons, hstep, heq], ?_⟩
              intro c hc hcne q hq
              rcases List.mem_cons.mp hc with rfl | hc'
              · have hq' : q = pos := by rw [hpos] at hq; injection hq with h; exact h.symm
                rw [hq']
                exact ⟨bid, bd, rfl, hlt⟩
              · exact hall c hc' hcne q hq
            · right
              refine ⟨sat :: l₁, w, l₂, p, by rw [hl]; rfl, hw, hp,
                by rw [List.foldl_cons, hstep]; exact hr, hbeat, ?_, hl₂⟩
              intro c hc hcne q hq
              rcases List.mem_cons.mp hc with rfl | hc'
              · have hq' : q = pos := by rw [hpos] at hq; injection hq with h; exact h.symm
                have h₁ : dist3 p spos < bd := hbeat bid bd rfl
                have h₂ : bd ≤ dist3 pos spos := not_lt.mp hlt
                rw [hq']
                exact lt_of_lt_of_le h₁ h₂
              · exact hl₁ c hc' hcne q hq

/-- When no satellite in the list is a candidate (each is the selected id
or has no buffered position), the scan fold returns its accumulator. -/
lemma scanBest_fold_nocand (s : Store) (sid : String) (spos : SatellitePosition) :
    ∀ (l : List SatelliteInfo) (acc : Option (String × ℝ)),
    (∀ c ∈ l, c.noradId ≠ sid → getRealtimePosition s c.noradId = none) →
    l.foldl (stepBest s sid spos) acc = acc := by
  intro l
  induction l with
  | nil => intro acc _; rfl
  | cons sat rest ih =>
    intro acc h
    have hstep : stepBest s sid spos acc sat = acc := by
      by_cases hs : sat.noradId = sid
      · simp [stepBest, hs]
      · have hn := h sat (List.mem_cons_self sat rest) hs
        simp [stepBest, hs, hn]
    rw [List.foldl_cons, hstep]
    exact ih acc (fun c hc => h c (List.mem_cons_of_mem sat hc))

/-! Claim theorems. -/

/-- C8: `setSelectedSatellite` always clears compare mode: whatever the
prior store state, after selecting, the comparison-mode flag is false and
both closest-satellite result fields are null (and the selection is the
requested id). -/
theorem setSelectedSatellite_clears_compare (s : Store) (noradId : Option String) :
    (setSelectedSatellite s noradId).selectedSatellite = noradId ∧
    (setSelectedSatellite s noradId).closestSatelliteMode = false ∧
    (setSelectedSatellite s noradId).closestSatelliteId = none ∧
    (setSelectedSatellite s noradId).closestSatelliteDistance = none :=
  ⟨rfl, rfl, rfl, rfl⟩

/-- C10: `getRealtimePosition` is a total lookup: with a registered
getter it returns exactly that buffer's entry for the id (none when
absent) and its result does not depend on the throttled
`satellitePositions` map; with no getter it falls back to the throttled
map's entry (none when absent). -/
theorem getRealtimePosition_total (s : Store) (noradId : String) :
    (∀ buf, s.realtimePositionGetter = some buf →
      getRealtimePosition s noradId = buf noradId ∧
      ∀ m, getRealtimePosition { s with satellitePositions := m } noradId = buf noradId) ∧
    (s.realtimePositionGetter = none →
      getRealtimePosition s noradId = s.satellitePositions noradId) := by
  constructor
  · intro buf h
    exact ⟨getRealtimePosition_getter s buf h noradId,
      fun m => getRealtimePosition_getter { s with satellitePositions := m } buf h noradId⟩
  · intro h
    simp [getRealtimePosition, h]

/-- Witness for C10 at the concrete scenario store. -/
theorem getRealtimePosition_total_witness :
    exampleStore.realtimePositionGetter = some exampleBuffer ∧
    getRealtimePosition exampleStore "B" = exampleBuffer "B" ∧
    getRealtimePosition { exampleStore with satellitePositions := fun _ => some posA } "B" =
      exampleBuffer "B" :=
  ⟨rfl,
    ((getRealtimePosition_total exampleStore "B").1 exampleBuffer rfl).1,
    ((getRealtimePosition_total exampleStore "B").1 exampleBuffer rfl).2 (fun _ => some posA)⟩

/-- The concrete scenario's distance: from (0,0,0) to (3,4,0) the scan's
Euclidean distance is 5. -/
lemma dist3_posB_posA : dist3 posB posA = 5 := by
  have h : (((posB.x - posA.x : ℚ) : ℝ) * ((posB.x - posA.x : ℚ) : ℝ) +
      ((posB.y - posA.y : ℚ) : ℝ) * ((posB.y - posA.y : ℚ) : ℝ) +
      ((posB.z - posA.z : ℚ) : ℝ) * ((posB.z - posA.z : ℚ) : ℝ)) = 25 := by
    norm_num [posA, posB]
  rw [dist3, h, show (25 : ℝ) = 5 ^ 2 by norm_num, Real.sqrt_sq (by norm_num : (0 : ℝ) ≤ 5)]

/-- C1: whenever the selected id has a buffered position and at least one
other satellite does too, `findClosestSatellite` writes the id of a
candidate (a catalog satellite other than the selection with a buffered
position) whose buffered position attains the minimum Euclidean distance
to the selection's buffered position, with ties going to the first such
candidate in catalog order (every earlier candidate is strictly farther);
in particular, on the scenario with the selection at (0,0,0) and B at
(3,4,0) as the only other candidate, it reports B at distance 5. -/
theorem findClosestSatellite_minimizes :
    (∀ (s : Store) (buf : String → Option SatellitePosition) (sid : String)
        (spos : SatellitePosition) (cand : SatelliteInfo) (candPos : SatellitePosition),
      s.realtimePositionGetter = some buf →
      s.selectedSatellite = some sid →
      buf sid = some spos →
      cand ∈ s.satellites → cand.noradId ≠ sid → buf cand.noradId = some candPos →
      ∃ w p l₁ l₂,
        (findClosestSatellite s).closestSatelliteId = some w.noradId ∧
        (findClosestSatellite s).closestSatelliteDistance = some (dist3 p spos) ∧
        s.satellites = l₁ ++ w :: l₂ ∧
        w.noradId ≠ sid ∧ buf w.noradId = some p ∧
        (∀ c ∈ s.satellites, c.noradId ≠ sid → ∀ q, buf c.noradId = some q →
          dist3 p spos ≤ dist3 q spos) ∧
        (∀ c ∈ l₁, c.noradId ≠ sid → ∀ q, buf c.noradId = some q →
          dist3 p spos < dist3 q spos)) ∧
    (findClosestSatellite exampleStore).closestSatelliteId = some "B" ∧
    (findClosestSatellite exampleStore).closestSatelliteDistance = some 5 := by
  constructor
  · intro s buf sid spos cand candPos hget hsel hspos hcand hcne hcpos
    have hrt : ∀ id, getRealtimePosition s id = buf id :=
      fun id => getRealtimePosition_getter s buf hget id
    rcases scanBest_fold_spec s sid spos s.satellites none with
      ⟨heq, hall⟩ | ⟨l₁, w, l₂, p, hl, hw, hp, hr, _, hl₁, hl₂⟩
    · obtain ⟨bid, bd, hbd, _⟩ := hall cand hcand hcne candPos (by rw [hrt]; exact hcpos)
      cases hbd
    · have hscan : scanBest s sid spos = some (w.noradId, dist3 p spos) := hr
      have h1 : getRealtimePosition s sid = some spos := by rw [hrt]; exact hspos
      have hfind : findClosestSatellite s =
          { s with
            closestSatelliteId := some w.noradId
            closestSatelliteDistance := some (dist3 p spos) } := by
        simp only [findClosestSatellite, hsel, h1, hget, hscan]
      refine ⟨w, p, l₁, l₂, by rw [hfind], by rw [hfind], hl, hw,
        by rw [← hrt w.noradId]; exact hp, ?_, ?_⟩
      · intro c hc hcne' q hq
        have hq' : getRealtimePosition s c.noradId = some q := by rw [hrt]; exact hq
        rw [hl] at hc
        rcases List.mem_append.mp hc with hmem | hmem
        · exact le_of_lt (hl₁ c hmem hcne' q hq')
        · rcases List.mem_cons.mp hmem with rfl | hmem'
          · have hqp : q = p := by rw [hp] at hq'; injection hq' with h; exact h.symm
            rw [hqp]
          · exact hl₂ c hmem' hcne' q hq'
      · intro c hc hcne' q hq
        exact hl₁ c hc hcne' q (by rw [hrt]; exact hq)
  · refine ⟨rfl, ?_⟩
    have h : (findClosestSatellite exampleStore).closestSatelliteDistance =
        some (dist3 posB posA) := rfl
    rw [h, dist3_posB_posA]

/-- Witness for C1: applying the theorem on the scenario store yields the
minimizing candidate claim there. -/
theorem findClosestSatellite_minimizes_witness :
    exampleStore.realtimePositionGetter = some exampleBuffer ∧
    exampleStore.selectedSatellite = some "A" ∧
    exampleBuffer "A" = some posA ∧
    satB ∈ exampleStore.satellites ∧
    satB.noradId ≠ "A" ∧
    exampleBuffer satB.noradId = some posB ∧
    (∃ w p l₁ l₂,
      (findClosestSatellite exampleStore).closestSatelliteId = some w.noradId ∧
      (findClosestSatellite exampleStore).closestSatelliteDistance = some (dist3 p posA) ∧
      exampleStore.satellites = l₁ ++ w :: l₂ ∧
      w.noradId ≠ "A" ∧ exampleBuffer w.noradId = some p ∧
      (∀ c ∈ exampleStore.satellites, c.noradId ≠ "A" → ∀ q,
        exampleBuffer c.noradId = some q → dist3 p posA ≤ dist3 q posA) ∧
      (∀ c ∈ l₁, c.noradId ≠ "A" → ∀ q, exampleBuffer c.noradId = some q →
        dist3 p posA < dist3 q posA)) :=
  ⟨rfl, rfl, rfl, by decide, by decide, rfl,
    findClosestSatellite_minimizes.1 exampleStore exampleBuffer "A" posA satB posB rfl rfl rfl
      (by decide) (by decide) rfl⟩

/-- C2 (the stored distance is the raw scene-coordinate distance, not
kilometres): on the scenario whose buffered positions are 5 scene units —
that is, 5 / SCALE_FACTOR = 5000 km — apart, `findClosestSatellite`
stores 5, which differs from the inverse-scaled kilometre value the spec
describes. -/
theorem closestDistance_not_km :
    (findClosestSatellite exampleStore).closestSatelliteDistance = some 5 ∧
    kmFromScene 5 = 5000 ∧
    (findClosestSatellite exampleStore).closestSatelliteDistance ≠ some (kmFromScene 5) := by
  have h : (findClosestSatellite exampleStore).closestSatelliteDistance =
      some (dist3 posB posA) := rfl
  have hkm : kmFromScene 5 = 5000 := by
    norm_num [kmFromScene, SCALE_FACTOR]
  refine ⟨by rw [h, dist3_posB_posA], hkm, ?_⟩
  rw [h, dist3_posB_posA, hkm]
  intro hcontra
  have : (5 : ℝ) = 5000 := by injection hcontra
  norm_num at this

/-- C5: a propagation failure for one object (its per-object `try` block
throws, modelled by a `none` result) leaves the whole tick's buffer
exactly as if that object had simply been absent: every other object
before and after it is still processed, and no other object's buffered
entry changes. -/
theorem propagationFailure_isolated (buffer : List (String × SatellitePosition))
    (pre post : List (String × Option SatellitePosition)) (failId : String) :
    processObjects buffer (pre ++ (failId, none) :: post) =
      processObjects buffer (pre ++ post) ∧
    ∀ k, (processObjects buffer (pre ++ (failId, none) :: post)).lookup k =
      (processObjects buffer (pre ++ post)).lookup k := by
  have h : processObjects buffer (pre ++ (failId, none) :: post) =
      processObjects buffer (pre ++ post) := by
    simp [processObjects, List.foldl_append]
  exact ⟨h, fun k => by rw [h]⟩

/-- C4: each Satellites tick increments the frame counter by one; the
observable store is rewritten exactly on ticks whose incremented counter
is divisible by `ZUSTAND_UPDATE_INTERVAL` (it is the flushed buffer then
and is untouched otherwise); and within any window of
`ZUSTAND_UPDATE_INTERVAL` consecutive counter values at most one
satisfies the flush condition. -/
theorem observableSyncThrottle_spec :
    (∀ (s : SatFrameState) results,
      (satellitesTick s results).frameCounter = s.frameCounter + 1) ∧
    (∀ (s : SatFrameState) results, shouldUpdateZustand (s.frameCounter + 1) = false →
      (satellitesTick s results).storePositions = s.storePositions) ∧
    (∀ (s : SatFrameState) results, shouldUpdateZustand (s.frameCounter + 1) = true →
      (satellitesTick s results).storePositions =
        flushToStore (processObjects s.localPositionBuffer results) s.storePositions) ∧
    (∀ n c₁ c₂ : ℕ, n ≤ c₁ → c₁ < n + ZUSTAND_UPDATE_INTERVAL →
      n ≤ c₂ → c₂ < n + ZUSTAND_UPDATE_INTERVAL →
      shouldUpdateZustand c₁ = true → shouldUpdateZustand c₂ = true → c₁ = c₂) := by
  refine ⟨fun s results => rfl, fun s results h => ?_, fun s results h => ?_, ?_⟩
  · simp [satellitesTick, h]
  · simp [satellitesTick, h]
  · intro n c₁ c₂ h₁ h₂ h₃ h₄ h₅ h₆
    simp only [shouldUpdateZustand, ZUSTAND_UPDATE_INTERVAL, decide_eq_true_eq] at h₅ h₆
    simp only [ZUSTAND_UPDATE_INTERVAL] at h₂ h₄
    omega

/-- Witness for C4 at concrete inputs: the first tick increments the
counter to 1, does not flush (1 is not divisible by 60), and in the
window [30, 90) only the counter value 60 flushes. -/
theorem observableSyncThrottle_spec_witness :
    (satellitesTick exampleFrameState []).frameCounter = exampleFrameState.frameCounter + 1 ∧
    (satellitesTick exampleFrameState []).storePositions = exampleFrameState.storePositions ∧
    (60 : ℕ) = 60 :=
  ⟨observableSyncThrottle_spec.1 exampleFrameState [],
    observableSyncThrottle_spec.2.1 exampleFrameState [] (by decide),
    observableSyncThrottle_spec.2.2.2 30 60 60 (by decide) (by decide) (by decide) (by decide)
      (by decide) (by decide)⟩

/-- C9: invalid or not-yet-ready requests are no-ops: enabling compare
mode with no current selection returns the state unchanged; and
`findClosestSatellite` leaves the state unchanged when the selected
object's position is not buffered, or when no candidate has a buffered
position. -/
theorem invalidRequests_noop (s : Store) :
    (s.selectedSatellite = none → enableClosestSatelliteMode s = s) ∧
    (∀ sid, s.selectedSatellite = some sid → getRealtimePosition s sid = none →
      findClosestSatellite s = s) ∧
    (∀ sid, s.selectedSatellite = some sid →
      (∀ c ∈ s.satellites, c.noradId ≠ sid → getRealtimePosition s c.noradId = none) →
      findClosestSatellite s = s) := by
  refine ⟨?_, ?_, ?_⟩
  · intro h
    simp only [enableClosestSatelliteMode, h]
  · intro sid hsel hpos
    simp only [findClosestSatellite, hsel, hpos]
  · intro sid hsel hnone
    cases hpos : getRealtimePosition s sid with
    | none => simp only [findClosestSatellite, hsel, hpos]
    | some spos =>
      cases hget : s.realtimePositionGetter with
      | none => simp only [findClosestSatellite, hsel, hpos, hget]
      | some buf =>
        have hscan : scanBest s sid spos = none :=
          scanBest_fold_nocand s sid spos s.satellites none hnone
        simp only [findClosestSatellite, hsel, hpos, hget, hscan]

/-- Witness for C9 on three concrete stores: no selection, a selection
with no buffered position, and a selection whose only peer has no
buffered position. -/
theorem invalidRequests_noop_witness :
    (storeNoSelection.selectedSatellite = none ∧
      enableClosestSatelliteMode storeNoSelection = storeNoSelection) ∧
    (storeNoPosition.selectedSatellite = some "A" ∧
      getRealtimePosition storeNoPosition "A" = none ∧
      findClosestSatellite storeNoPosition = storeNoPosition) ∧
    (storeNoCandidate.selectedSatellite = some "A" ∧
      findClosestSatellite storeNoCandidate = storeNoCandidate) :=
  ⟨⟨rfl, (invalidRequests_noop storeNoSelection).1 rfl⟩,
    ⟨rfl, rfl, (invalidRequests_noop storeNoPosition).2.1 "A" rfl rfl⟩,
    ⟨rfl, (invalidRequests_noop storeNoCandidate).2.2 "A" rfl (by decide)⟩⟩

/-- The LOD policy never returns a negative sample count. -/
lemma lodSegments_nonneg (d : ℚ) : 0 ≤ lodSegments d := by
  simp only [lodSegments, MAX_TRAIL_SEGMENTS, MIN_TRAIL_SEGMENTS, LOD_NEAR_DISTANCE,
    LOD_FAR_DISTANCE, MAX_VISIBLE_DISTANCE]
  split_ifs with h1 h2 h3
  · exact le_refl 0
  · exact Int.le_floor.mpr (by norm_num)
  · refine Int.le_floor.mpr ?_
    push_cast
    linarith
  · exact le_max_left 0 _

/-- In the linear-interpolation region the LOD count stays at or above
the minimal sample count. -/
lemma lodSegments_mid_ge_ten {d : ℚ} (hN : ¬ d < (15 : ℚ)) (hF : d < (50 : ℚ)) :
    10 ≤ lodSegments d := by
  have hA : ¬ d > (100 : ℚ) := by linarith
  simp only [lodSegments, MAX_TRAIL_SEGMENTS, MIN_TRAIL_SEGMENTS, LOD_NEAR_DISTANCE,
    LOD_FAR_DISTANCE, MAX_VISIBLE_DISTANCE]
  rw [if_neg hA]
  by_cases h2 : d < (15 : ℚ)
  · exact absurd h2 hN
  · rw [if_neg h2, if_pos hF]
    refine Int.le_floor.mpr ?_
    push_cast
    linarith

/-- In the linear-falloff region the LOD count stays at or below the
minimal sample count. -/
lemma lodSegments_far_le_ten {d : ℚ} (hA : ¬ d > (100 : ℚ)) (hF : ¬ d < (50 : ℚ)) :
    lodSegments d ≤ 10 := by
  have hN : ¬ d < (15 : ℚ) := by push_neg at hF ⊢; linarith
  simp only [lodSegments, MAX_TRAIL_SEGMENTS, MIN_TRAIL_SEGMENTS, LOD_NEAR_DISTANCE,
    LOD_FAR_DISTANCE, MAX_VISIBLE_DISTANCE]
  rw [if_neg hA, if_neg hN, if_neg hF]
  refine max_le (by norm_num) ?_
  have harg : (10 : ℚ) * (1 - (d - 50) / (100 - 50)) ≤ ((10 : ℤ) : ℚ) := by
    push_cast
    push_neg at hF
    linarith
  calc ⌊(10 : ℚ) * (1 - (d - 50) / (100 - 50))⌋ ≤ ⌊((10 : ℤ) : ℚ)⌋ := Int.floor_le_floor harg
    _ = 10 := Int.floor_intCast 10

/-- C7: the trail sample count equals the maximum (100) for every
distance below the near threshold, is non-increasing in the distance at
and beyond the near threshold, and is never negative. -/
theorem lodSegments_spec :
    (∀ d : ℚ, d < LOD_NEAR_DISTANCE → lodSegments d = 100) ∧
    (∀ d₁ d₂ : ℚ, LOD_NEAR_DISTANCE ≤ d₁ → d₁ ≤ d₂ → lodSegments d₂ ≤ lodSegments d₁) ∧
    (∀ d : ℚ, 0 ≤ lodSegments d) := by
  refine ⟨?_, ?_, fun d => lodSegments_nonneg d⟩
  · intro d h
    simp only [LOD_NEAR_DISTANCE] at h
    have hA : ¬ d > (100 : ℚ) := by linarith
    simp only [lodSegments, MAX_TRAIL_SEGMENTS, MIN_TRAIL_SEGMENTS, LOD_NEAR_DISTANCE,
      LOD_FAR_DISTANCE, MAX_VISIBLE_DISTANCE]
    rw [if_neg hA, if_pos h, show ((100 : ℚ)) = ((100 : ℤ) : ℚ) by norm_num,
      Int.floor_intCast]
  · intro d₁ d₂ h1 h12
    simp only [LOD_NEAR_DISTANCE] at h1
    by_cases hA2 : d₂ > (100 : ℚ)
    · have e2 : lodSegments d₂ = 0 := by
        simp only [lodSegments, MAX_VISIBLE_DISTANCE]
        rw [if_pos hA2]
      rw [e2]
      exact lodSegments_nonneg d₁
    · have hA1 : ¬ d₁ > (100 : ℚ) := by push_neg at hA2 ⊢; linarith
      have hN1 : ¬ d₁ < (15 : ℚ) := by linarith
      have hN2 : ¬ d₂ < (15 : ℚ) := by linarith
      by_cases hF1 : d₁ < (50 : ℚ)
      · by_cases hF2 : d₂ < (50 : ℚ)
        · have e1 : lodSegments d₁ =
              ⌊(100 : ℚ) - (d₁ - 15) / (50 - 15) * (100 - 10)⌋ := by
            simp only [lodSegments, MAX_TRAIL_SEGMENTS, MIN_TRAIL_SEGMENTS,
              LOD_NEAR_DISTANCE, LOD_FAR_DISTANCE, MAX_VISIBLE_DISTANCE]
            rw [if_neg hA1, if_neg hN1, if_pos hF1]
          have e2 : lodSegments d₂ =
              ⌊(100 : ℚ) - (d₂ - 15) / (50 - 15) * (100 - 10)⌋ := by
            simp only [lodSegments, MAX_TRAIL_SEGMENTS, MIN_TRAIL_SEGMENTS,
              LOD_NEAR_DISTANCE, LOD_FAR_DISTANCE, MAX_VISIBLE_DISTANCE]
            rw [if_neg hA2, if_neg hN2, if_pos hF2]
          rw [e1, e2]
          refine Int.floor_le_floor ?_
          have h35 : (0 : ℚ) < 35 := by norm_num
          linarith
        · exact le_trans (lodSegments_far_le_ten hA2 hF2) (lodSegments_mid_ge_ten hN1 hF1)
      · have hF2 : ¬ d₂ < (50 : ℚ) := by push_neg at hF1 ⊢; linarith
        have e1 : lodSegments d₁ =
            max 0 ⌊(10 : ℚ) * (1 - (d₁ - 50) / (100 - 50))⌋ := by
          simp only [lodSegments, MAX_TRAIL_SEGMENTS, MIN_TRAIL_SEGMENTS,
            LOD_NEAR_DISTANCE, LOD_FAR_DISTANCE, MAX_VISIBLE_DISTANCE]
          rw [if_neg hA1, if_neg hN1, if_neg hF1]
        have e2 : lodSegments d₂ =
            max 0 ⌊(10 : ℚ) * (1 - (d₂ - 50) / (100 - 50))⌋ := by
          simp only [lodSegments, MAX_TRAIL_SEGMENTS, MIN_TRAIL_SEGMENTS,
            LOD_NEAR_DISTANCE, LOD_FAR_DISTANCE, MAX_VISIBLE_DISTANCE]
          rw [if_neg hA2, if_neg hN2, if_neg hF2]
        rw [e1, e2]
        refine max_le_max (le_refl 0) (Int.floor_le_floor ?_)
        linarith

/-- Witness for C7 at concrete distances: 10 is below the near threshold
and maps to the maximum; 60 is no closer than 20 and maps to no more
samples; 200 maps to a non-negative count. -/
theorem lodSegments_spec_witness :
    lodSegments 10 = 100 ∧
    (LOD_NEAR_DISTANCE ≤ (20 : ℚ) ∧ (20 : ℚ) ≤ 60 ∧ lodSegments 60 ≤ lodSegments 20) ∧
    0 ≤ lodSegments 200 :=
  ⟨lodSegments_spec.1 10 (by norm_num [LOD_NEAR_DISTANCE]),
    ⟨by norm_num [LOD_NEAR_DISTANCE], by norm_num,
      lodSegments_spec.2.1 20 60 (by norm_num [LOD_NEAR_DISTANCE]) (by norm_num)⟩,
    lodSegments_spec.2.2 200⟩

/-- At full progress the eased factor is exactly one (the explicit branch
of the easing curve). -/
lemma easeOutExpo_one : easeOutExpo 1 = 1 := by
  simp [easeOutExpo]

/-- Linear interpolation at factor one lands exactly on its endpoint. -/
lemma lerpVectors_one (a b : Vec3) : lerpVectors a b 1 = b := by
  cases a; cases b
  simp only [lerpVectors, Vec3.mk.injEq]
  refine ⟨by ring, by ring, by ring⟩

/-- While the accumulated progress stays below one, each transition tick
keeps the camera transitioning, advances progress by `delta * 1.2`, and
preserves the captured start and target vectors. -/
lemma cameraTransitionTick_iterate (delta : ℚ) (cm : Bool) (vo : Option String)
    (s₀ : CamState) (hd : 0 < delta) (ht : s₀.isTransitioning = true)
    (hp : s₀.transitionProgress = 0) :
    ∀ k : ℕ, (k : ℚ) * (delta * 1.2) < 1 →
      ((cameraTransitionTick delta cm vo)^[k] s₀).isTransitioning = true ∧
      ((cameraTransitionTick delta cm vo)^[k] s₀).transitionProgress =
        (k : ℚ) * (delta * 1.2) ∧
      ((cameraTransitionTick delta cm vo)^[k] s₀).startCameraPosition =
        s₀.startCameraPosition ∧
      ((cameraTransitionTick delta cm vo)^[k] s₀).startCameraTarget =
        s₀.startCameraTarget ∧
      ((cameraTransitionTick delta cm vo)^[k] s₀).targetPosition = s₀.targetPosition ∧
      ((cameraTransitionTick delta cm vo)^[k] s₀).targetLookAt = s₀.targetLookAt := by
  intro k
  induction k with
  | zero =>
    intro _
    exact ⟨ht, by simp [hp], rfl, rfl, rfl, rfl⟩
  | succ k ih =>
    intro hk
    have hc : (0 : ℚ) < delta * 1.2 := mul_pos hd (by norm_num)
    push_cast at hk
    have hk' : (k : ℚ) * (delta * 1.2) < 1 := by nlinarith
    obtain ⟨h1, h2, h3, h4, h5, h6⟩ := ih hk'
    rw [Function.iterate_succ_apply']
    set s := (cameraTransitionTick delta cm vo)^[k] s₀ with hs
    have hlt : ¬ (1 : ℚ) ≤ s.transitionProgress + delta * 1.2 := by
      rw [h2]
      intro hcon
      nlinarith
    refine ⟨?_, ?_, ?_, ?_, ?_, ?_⟩ <;>
      simp only [cameraTransitionTick, h1, if_true, if_neg hlt]
    · rw [h2]; push_cast; ring
    · exact h3
    · exact h4
    · exact h5
    · exact h6

/-- C3: for any fixed per-tick delta > 0, a camera transition started at
progress 0 finishes after finitely many ticks: on the finishing tick
progress is exactly 1, the eased factor `easeOutExpo 1` is exactly 1, the
transition flag drops, and the camera position and the controls target
are exactly the precomputed target position and look-at. -/
theorem cameraTransition_completes (delta : ℚ) (cm : Bool) (vo : Option String)
    (s₀ : CamState) (hd : 0 < delta) (ht : s₀.isTransitioning = true)
    (hp : s₀.transitionProgress = 0) :
    easeOutExpo 1 = 1 ∧
    ∃ n : ℕ, 0 < n ∧
      ((cameraTransitionTick delta cm vo)^[n] s₀).transitionProgress = 1 ∧
      ((cameraTransitionTick delta cm vo)^[n] s₀).isTransitioning = false ∧
      ((cameraTransitionTick delta cm vo)^[n] s₀).camPos = s₀.targetPosition ∧
      ((cameraTransitionTick delta cm vo)^[n] s₀).ctrlTarget = s₀.targetLookAt := by
  refine ⟨easeOutExpo_one, ?_⟩
  have hc : (0 : ℚ) < delta * 1.2 := mul_pos hd (by norm_num)
  set n := ⌈(1 : ℚ) / (delta * 1.2)⌉₊ with hn
  have hn0 : 0 < n := Nat.ceil_pos.mpr (by positivity)
  have hub : (1 : ℚ) ≤ (n : ℚ) * (delta * 1.2) := by
    have hle := Nat.le_ceil ((1 : ℚ) / (delta * 1.2))
    rw [← hn] at hle
    calc (1 : ℚ) = 1 / (delta * 1.2) * (delta * 1.2) := by field_simp
      _ ≤ (n : ℚ) * (delta * 1.2) := mul_le_mul_of_nonneg_right hle (le_of_lt hc)
  have hlt : ((n - 1 : ℕ) : ℚ) * (delta * 1.2) < 1 := by
    have hsub : (n - 1 : ℕ) < n := Nat.sub_lt hn0 one_pos
    have h2 : ((n - 1 : ℕ) : ℚ) < 1 / (delta * 1.2) := Nat.lt_ceil.mp (hn ▸ hsub)
    calc ((n - 1 : ℕ) : ℚ) * (delta * 1.2) < 1 / (delta * 1.2) * (delta * 1.2) :=
        mul_lt_mul_of_pos_right h2 hc
      _ = 1 := by field_simp
  obtain ⟨h1, h2, h3, h4, h5, h6⟩ :=
    cameraTransitionTick_iterate delta cm vo s₀ hd ht hp (n - 1) hlt
  refine ⟨n, hn0, ?_⟩
  have hstep : n = (n - 1) + 1 := (Nat.succ_pred_eq_of_pos hn0).symm
  rw [hstep, Function.iterate_succ_apply']
  set s := (cameraTransitionTick delta cm vo)^[n - 1] s₀ with hsdef
  have hcast : ((n - 1 : ℕ) : ℚ) = (n : ℚ) - 1 := by
    rw [Nat.cast_sub hn0, Nat.cast_one]
  have hge : (1 : ℚ) ≤ s.transitionProgress + delta * 1.2 := by
    rw [h2, hcast]
    nlinarith
  refine ⟨?_, ?_, ?_, ?_⟩ <;>
    simp only [cameraTransitionTick, h1, if_true, if_pos hge]
  · rw [easeOutExpo_one, lerpVectors_one, h5]
  · rw [easeOutExpo_one, lerpVectors_one, h6]

/-- Witness for C3: a concrete transition with delta 1 from the example
camera state completes exactly on the target. -/
theorem cameraTransition_completes_witness :
    (0 : ℚ) < 1 ∧ exampleCamState.isTransitioning = true ∧
    exampleCamState.transitionProgress = 0 ∧
    (easeOutExpo 1 = 1 ∧
      ∃ n : ℕ, 0 < n ∧
        ((cameraTransitionTick 1 false none)^[n] exampleCamState).transitionProgress = 1 ∧
        ((cameraTransitionTick 1 false none)^[n] exampleCamState).isTransitioning = false ∧
        ((cameraTransitionTick 1 false none)^[n] exampleCamState).camPos =
          exampleCamState.targetPosition ∧
        ((cameraTransitionTick 1 false none)^[n] exampleCamState).ctrlTarget =
          exampleCamState.targetLookAt) :=
  ⟨by norm_num, rfl, rfl,
    cameraTransition_completes 1 false none exampleCamState (by norm_num) rfl rfl⟩

/-- C6 (refuting the guarded-write claim at a concrete run): enable
compare mode on the scenario store, disable it again before the deferred
`findClosestSatellite` fires, then let the deferred call arrive.  The
stale result is written: the closest-satellite id and distance are
repopulated even though compare mode is off, because
`findClosestSatellite` never checks `closestSatelliteMode`. -/
theorem staleClosestResult_written :
    (findClosestSatellite
        (disableClosestSatelliteMode (enableClosestSatelliteMode exampleStore))).closestSatelliteMode
      = false ∧
    (findClosestSatellite
        (disableClosestSatelliteMode (enableClosestSatelliteMode exampleStore))).closestSatelliteId
      = some "B" :=
  ⟨rfl, rfl⟩

end Astral
